import Mathlib

/-!
# Verification of the postgres-importer migration orchestrator

A shallow embedding of `cmd/migrate/main.go` (fly-apps/postgres-importer).

Modelling conventions:
* Go strings are modelled as Lean `String`; Go's byte-lexicographic string
  comparison agrees with Lean's codepoint-lexicographic `<` on valid UTF-8,
  which is the representation of every Lean `String`.
* `os.Getenv` returns `""` for an unset variable, so an environment is a
  record of four strings and "unset" is the empty string, exactly as the Go
  code observes it.
* Calls into the outside world (pgx.ParseConfig on the source URI, the two
  `openConnection` calls, the two `SHOW server_version;` queries, and the
  shelled-out dump/restore pipeline) are oracles: a `World` record fixes
  their outcomes, and the embedding threads an explicit event trace
  recording each connection attempt, version query and pipeline run, in
  program order.
* `os.Exit(1)` / normal return are modelled as the `exitCode` of `mainRun`;
  each `log.Printf("[error] ...")` line is collected in `errorLines`.
-/

/-- Structure `migrationOpts` from main.go lines 17-24. -/
structure migrationOpts where
  sourceURI : String
  targetURI : String
  noOwner : Bool
  clean : Bool
  create : Bool
  dataOnly : Bool
deriving DecidableEq, Repr

/-- The four environment variables read by `main` (lines 37, 45, 46, 57).
`os.Getenv` yields `""` when the variable is unset. -/
structure Env where
  SOURCE_DATABASE_URI : String
  OPERATOR_PASSWORD : String
  FLY_APP_NAME : String
  TARGET_DATABASE_URI : String
deriving DecidableEq, Repr

/-- The four command-line flags (lines 30-33); defaults
`no-owner=true, clean=true, create=true, data-only=false`. -/
structure Flags where
  noOwner : Bool
  clean : Bool
  create : Bool
  dataOnly : Bool
deriving DecidableEq, Repr

/-- Default flag values from lines 30-33 of main.go. -/
def defaultFlags : Flags :=
  { noOwner := true, clean := true, create := true, dataOnly := false }

/-- The three configuration failures of `main` (lines 38-42, 50-54, 59-63). -/
inductive ConfigError where
  | missingSource
  | missingOperatorPassword
  | missingTarget
deriving DecidableEq, Repr

/-- The error line `main` logs for each configuration failure
(lines 39, 51, 60). -/
def configErrMsg : ConfigError → String
  | .missingSource => "[error] SOURCE_DATABASE_URI secret must be set"
  | .missingOperatorPassword =>
      "[error] OPERATOR_PASSWORD secret must be set when FLY_APP_NAME is set"
  | .missingTarget =>
      "[error] FLY_APP_NAME or TARGET_DATABASE_URI environment variable must be set"

/-- The target locator derived from `FLY_APP_NAME` / `OPERATOR_PASSWORD`
(line 49): `postgres://postgres:<pass>@<app>.internal:5432`. It is assigned
to `targetURI` and then unconditionally overwritten on line 57. -/
def derivedTarget (env : Env) : String :=
  "postgres://postgres:" ++ env.OPERATOR_PASSWORD ++ "@" ++ env.FLY_APP_NAME
    ++ ".internal:5432"

/-- The configuration phase of `main` (lines 37-73): required source URI,
the operator-password check when `FLY_APP_NAME` is set, then the
unconditional `targetURI = os.Getenv("TARGET_DATABASE_URI")` on line 57
which discards `derivedTarget`, then the non-empty-target check. -/
def resolveConfig (env : Env) (flags : Flags) : Except ConfigError migrationOpts :=
  if env.SOURCE_DATABASE_URI = "" then
    .error .missingSource
  else if env.FLY_APP_NAME ≠ "" ∧ env.OPERATOR_PASSWORD = "" then
    -- lines 48-55: inside `if appName != ""`, targetURI is set to
    -- `derivedTarget env` and the missing password aborts;
    -- when the password is present control reaches line 57 where the
    -- derived value is overwritten, so it never enters the options.
    .error .missingOperatorPassword
  else
    -- line 57: `targetURI = os.Getenv("TARGET_DATABASE_URI")`, discarding
    -- any derived value; lines 59-63 then require it non-empty.
    if env.TARGET_DATABASE_URI = "" then
      .error .missingTarget
    else
      .ok { sourceURI := env.SOURCE_DATABASE_URI
            targetURI := env.TARGET_DATABASE_URI
            noOwner := flags.noOwner
            clean := flags.clean
            create := flags.create
            dataOnly := flags.dataOnly }

/-- Result of `pgx.ParseConfig` as far as the program inspects it:
only the `Database` field is read (line 98). -/
structure PgConfig where
  database : String
deriving DecidableEq, Repr

/-- Outcomes of every call the program makes into the outside world, in
program order. `Except String` carries the underlying error text that Go
interpolates with `%s`. -/
structure World where
  parseSource : Except String PgConfig
  connectSource : Except String Unit
  connectTarget : Except String Unit
  sourceVersion : Except String String
  targetVersion : Except String String
  pipeline : Except String Unit
deriving Repr

/-- Observable external actions, used to state "no connection attempt is
made" and "before any version query is issued". -/
inductive Event where
  | connectAttempt (uri : String)
  | versionQuery (uri : String)
  | runPipeline (cmd : String)
deriving DecidableEq, Repr

/-- The errors `runPreChecks` can return (lines 96, 99, 105, 112, 119, 125,
133), each carrying the text the Go code wraps. -/
inductive PreCheckErr where
  | parseFailed (e : String)
  | missingDatabaseRef
  | sourceConnectFailed (e : String)
  | targetConnectFailed (e : String)
  | sourceVersionFailed (e : String)
  | targetVersionFailed (e : String)
  | versionMismatch (src tgt : String)
deriving DecidableEq, Repr

/-- The message of each pre-check error, from the `fmt.Errorf` format
strings in main.go. -/
def preCheckErrMsg : PreCheckErr → String
  | .parseFailed e => "failed to parse source uri: " ++ e
  | .missingDatabaseRef =>
      "source-uri must contain a database reference (e.g. postgres://<user>:<pass>@<host>:<port>/<database>)"
  | .sourceConnectFailed e => "failed to connect to source: " ++ e
  | .targetConnectFailed e => "failed to connect to target: " ++ e
  | .sourceVersionFailed e => "failed to query source version: " ++ e
  | .targetVersionFailed e => "failed to query target version: " ++ e
  | .versionMismatch src tgt =>
      "source is running a more recent version than target. expected >= "
        ++ tgt ++ ", got " ++ src

/-- Go's `strings.Split(s, ".")` on the underlying character list: splits at
every `'.'`; always yields at least one (possibly empty) token. -/
def splitDotChars : List Char → List (List Char)
  | [] => [[]]
  | c :: cs =>
    if c = '.' then [] :: splitDotChars cs
    else
      match splitDotChars cs with
      | [] => [[c]]
      | t :: ts => (c :: t) :: ts

/-- Model of `strings.Split(s, ".")` (lines 129-130). -/
def goSplitDot (s : String) : List String :=
  (splitDotChars s.data).map String.mk

/-- Go's `<` on strings: lexicographic on the character sequence (byte-wise
lexicographic order on valid UTF-8 coincides with codepoint order). -/
def goStrLtChars : List Char → List Char → Bool
  | [], [] => false
  | [], _ :: _ => true
  | _ :: _, [] => false
  | a :: as, b :: bs =>
    if a < b then true
    else if b < a then false
    else goStrLtChars as bs

/-- Go's `s > t` on strings. -/
def goStrGt (s t : String) : Bool :=
  goStrLtChars t.data s.data

/-- The version gate of lines 129-134: `sourceSlice[0] > targetSlice[0]`,
a lexical comparison of the leading dot-separated tokens as unparsed
strings. -/
def majorGt (src tgt : String) : Bool :=
  goStrGt ((goSplitDot src).headD "") ((goSplitDot tgt).headD "")

/-- Model of `runPreChecks` (lines 92-137), with the outcomes of external calls
supplied by `w` and the performed connection attempts / version queries
returned as an event trace. -/
def runPreChecks (w : World) (opts : migrationOpts) :
    Except PreCheckErr Unit × List Event :=
  match w.parseSource with
  | .error e => (.error (.parseFailed e), [])
  | .ok conf =>
    if conf.database = "" then
      (.error .missingDatabaseRef, [])
    else
      match w.connectSource with
      | .error e => (.error (.sourceConnectFailed e), [.connectAttempt opts.sourceURI])
      | .ok _ =>
        match w.connectTarget with
        | .error e =>
            (.error (.targetConnectFailed e),
             [.connectAttempt opts.sourceURI, .connectAttempt opts.targetURI])
        | .ok _ =>
          match w.sourceVersion with
          | .error e =>
              (.error (.sourceVersionFailed e),
               [.connectAttempt opts.sourceURI, .connectAttempt opts.targetURI,
                .versionQuery opts.sourceURI])
          | .ok srcV =>
            match w.targetVersion with
            | .error e =>
                (.error (.targetVersionFailed e),
                 [.connectAttempt opts.sourceURI, .connectAttempt opts.targetURI,
                  .versionQuery opts.sourceURI, .versionQuery opts.targetURI])
            | .ok tgtV =>
              let evs := [Event.connectAttempt opts.sourceURI,
                          Event.connectAttempt opts.targetURI,
                          Event.versionQuery opts.sourceURI,
                          Event.versionQuery opts.targetURI]
              if majorGt srcV tgtV then
                (.error (.versionMismatch srcV tgtV), evs)
              else
                (.ok (), evs)

/-- The dump command built by `runMigration` (lines 140-152). -/
def dumpStr (opts : migrationOpts) : String :=
  let s0 := "pg_dump -d " ++ opts.sourceURI
  let s1 := if opts.noOwner then s0 ++ " --no-owner" else s0
  let s2 := if opts.clean then s1 ++ " --clean" else s1
  let s3 := if opts.create then s2 ++ " --create" else s2
  if opts.dataOnly then s3 ++ " --data-only" else s3

/-- The restore command (line 154). -/
def restoreStr (opts : migrationOpts) : String :=
  "psql -d " ++ opts.targetURI

/-- The piped shell command (line 155). -/
def pipelineCmd (opts : migrationOpts) : String :=
  dumpStr opts ++ " | " ++ restoreStr opts

/-- Outcome of one process run: the exit code, the trace of external
actions, and the `[error]` lines logged. -/
structure RunResult where
  exitCode : Nat
  events : List Event
  errorLines : List String
deriving DecidableEq, Repr

/-- Model of `main` (lines 26-90): configuration, pre-checks, then the dump/restore
pipeline; `os.Exit(1)` with one `[error]` line on any failure, normal exit
(code 0) on success. -/
def mainRun (env : Env) (flags : Flags) (w : World) : RunResult :=
  match resolveConfig env flags with
  | .error e => { exitCode := 1, events := [], errorLines := [configErrMsg e] }
  | .ok opts =>
    match runPreChecks w opts with
    | (.error e, evs) =>
        { exitCode := 1, events := evs
          errorLines := ["[error] " ++ preCheckErrMsg e] }
    | (.ok _, evs) =>
      match w.pipeline with
      | .error e =>
          { exitCode := 1
            events := evs ++ [.runPipeline (pipelineCmd opts)]
            errorLines := ["[error] failed to import database: " ++ e] }
      | .ok _ =>
          { exitCode := 0
            events := evs ++ [.runPipeline (pipelineCmd opts)]
            errorLines := [] }

/-- A world in which every external call succeeds: the source URI parses to
database `db` and the endpoints report versions `src` and `tgt`. -/
def okWorld (db src tgt : String) : World :=
  { parseSource := .ok ⟨db⟩
    connectSource := .ok ()
    connectTarget := .ok ()
    sourceVersion := .ok src
    targetVersion := .ok tgt
    pipeline := .ok () }

/-- The switches appended by `runMigration`, one per true flag, in the
fixed source order no-owner, clean, create, data-only. -/
def switchList (opts : migrationOpts) : List String :=
  (if opts.noOwner then [" --no-owner"] else []) ++
  (if opts.clean then [" --clean"] else []) ++
  (if opts.create then [" --create"] else []) ++
  (if opts.dataOnly then [" --data-only"] else [])

/-- The sample source/target options of the end-to-end scenarios. -/
def sampleOpts : migrationOpts :=
  { sourceURI := "postgres://u:p@h1:5432/db"
    targetURI := "postgres://u:p@h2:5432/db"
    noOwner := true, clean := true, create := true, dataOnly := false }

/-- Environment with both a derivable and an explicit target locator. -/
def envBoth : Env :=
  { SOURCE_DATABASE_URI := "postgres://u:p@h1:5432/db"
    OPERATOR_PASSWORD := "pw"
    FLY_APP_NAME := "myapp"
    TARGET_DATABASE_URI := "postgres://u:p@h2:5432/db" }

/-- Scenario-4 environment: app name set, operator password unset, no
explicit target. -/
def envScenario4 : Env :=
  { SOURCE_DATABASE_URI := "postgres://u:p@h1:5432/db"
    OPERATOR_PASSWORD := ""
    FLY_APP_NAME := "myapp"
    TARGET_DATABASE_URI := "" }

-- `strings.Split` never returns an empty slice.
theorem splitDotChars_ne_nil (l : List Char) : splitDotChars l ≠ [] := by
  induction l with
  | nil => simp [splitDotChars]
  | cons c cs ih =>
    by_cases hc : c = '.'
    · simp [splitDotChars, hc]
    · cases h : splitDotChars cs with
      | nil => exact absurd h ih
      | cons t ts => simp [splitDotChars, hc, h]

theorem goSplitDot_ne_nil (s : String) : goSplitDot s ≠ [] := by
  unfold goSplitDot
  intro h
  exact splitDotChars_ne_nil s.data (List.map_eq_nil_iff.mp h)

/-- C10: the major-version comparison is total: `strings.Split` on `"."`
always yields a non-empty token list (so `sourceSlice[0]` and
`targetSlice[0]` never fail, the leading token being the list head), and
the comparison of the two leading tokens always produces a definite
pass/fail Boolean. -/
theorem major_comparison_total (src tgt : String) :
    (∃ t ts, goSplitDot src = t :: ts ∧ (goSplitDot src).headD "" = t) ∧
    (∃ u us, goSplitDot tgt = u :: us ∧ (goSplitDot tgt).headD "" = u) ∧
    (majorGt src tgt = true ∨ majorGt src tgt = false) := by
  refine ⟨?_, ?_, ?_⟩
  · cases h : goSplitDot src with
    | nil => exact absurd h (goSplitDot_ne_nil src)
    | cons t ts => exact ⟨t, ts, rfl, by simp⟩
  · cases h : goSplitDot tgt with
    | nil => exact absurd h (goSplitDot_ne_nil tgt)
    | cons u us => exact ⟨u, us, rfl, by simp⟩
  · cases majorGt src tgt <;> simp

/-- C2: for every flag combination, the dump command is exactly
`pg_dump -d <sourceURI>` followed by exactly the switches of the true
flags, in the fixed order no-owner, clean, create, data-only, and no
others. -/
theorem dumpStr_exact_switches (opts : migrationOpts) :
    dumpStr opts = "pg_dump -d " ++ opts.sourceURI ++ String.join (switchList opts) := by
  rcases opts with ⟨s, t, no, cl, cr, d⟩
  cases no <;> cases cl <;> cases cr <;> cases d <;>
    simp [dumpStr, switchList, String.join, String.append_assoc]

/-- C1: once both endpoints have reported their versions, pre-flight
validation fails with `VersionMismatchError` iff the source's leading
major-version token (split on `'.'`) is lexically greater, as an unparsed
string, than the target's; when it is lexically ≤ the version check passes;
in particular `"9.2"` vs `"15.0"` fails because `"9" > "15"` lexically. -/
theorem version_gate_lexical (w : World) (opts : migrationOpts) (conf : PgConfig)
    (src tgt : String)
    (hp : w.parseSource = Except.ok conf) (hdb : conf.database ≠ "")
    (hcs : w.connectSource = Except.ok ()) (hct : w.connectTarget = Except.ok ())
    (hsv : w.sourceVersion = Except.ok src) (htv : w.targetVersion = Except.ok tgt) :
    (((runPreChecks w opts).fst
        = Except.error (PreCheckErr.versionMismatch src tgt)) ↔ majorGt src tgt = true) ∧
    (majorGt src tgt = false → (runPreChecks w opts).fst = Except.ok ()) ∧
    majorGt "9.2" "15.0" = true := by
  refine ⟨?_, ?_, by decide⟩
  · cases hm : majorGt src tgt <;>
      simp [runPreChecks, hp, hdb, hcs, hct, hsv, htv, hm]
  · intro hm
    simp [runPreChecks, hp, hdb, hcs, hct, hsv, htv, hm]

/-- Witness for C1: concrete scenario-2 input, versions 9.2 and 15.0. -/
theorem version_gate_lexical_witness :
    (runPreChecks (okWorld "db" "9.2" "15.0") sampleOpts).fst
      = Except.error (PreCheckErr.versionMismatch "9.2" "15.0") :=
  ((version_gate_lexical (okWorld "db" "9.2" "15.0") sampleOpts ⟨"db"⟩ "9.2" "15.0"
      rfl (by decide) rfl rfl rfl rfl).1).mpr (by decide)

/-- Environment with an app name, no operator password, and an explicit
non-empty target, but no source URI. -/
def envNoSourceAppSet : Env :=
  { SOURCE_DATABASE_URI := ""
    OPERATOR_PASSWORD := ""
    FLY_APP_NAME := "myapp"
    TARGET_DATABASE_URI := "postgres://u:p@h2:5432/db" }

/-- Scenario-3 environment: only the source URI is missing. -/
def envNoSource : Env :=
  { SOURCE_DATABASE_URI := ""
    OPERATOR_PASSWORD := ""
    FLY_APP_NAME := ""
    TARGET_DATABASE_URI := "postgres://u:p@h2:5432/db" }

/-- Environment with app name set, password missing, and a usable explicit
target. -/
def envAppNoPass : Env :=
  { SOURCE_DATABASE_URI := "postgres://u:p@h1:5432/db"
    OPERATOR_PASSWORD := ""
    FLY_APP_NAME := "myapp"
    TARGET_DATABASE_URI := "postgres://u:p@h2:5432/db" }

-- Characterization of successful configuration resolution.
theorem resolveConfig_ok_iff (env : Env) (flags : Flags) (opts : migrationOpts) :
    resolveConfig env flags = Except.ok opts ↔
      env.SOURCE_DATABASE_URI ≠ "" ∧
      ¬(env.FLY_APP_NAME ≠ "" ∧ env.OPERATOR_PASSWORD = "") ∧
      env.TARGET_DATABASE_URI ≠ "" ∧
      opts = { sourceURI := env.SOURCE_DATABASE_URI
               targetURI := env.TARGET_DATABASE_URI
               noOwner := flags.noOwner
               clean := flags.clean
               create := flags.create
               dataOnly := flags.dataOnly } := by
  unfold resolveConfig
  split_ifs with h1 h2 h3
  · constructor
    · intro h
      exact absurd h (by simp)
    · rintro ⟨hs, -, -, -⟩
      exact absurd h1 hs
  · constructor
    · intro h
      exact absurd h (by simp)
    · rintro ⟨-, hnc, -, -⟩
      exact absurd h2 hnc
  · constructor
    · intro h
      exact absurd h (by simp)
    · rintro ⟨-, -, ht, -⟩
      exact absurd h3 ht
  · constructor
    · intro h
      injection h with h'
      exact ⟨h1, h2, h3, h'.symm⟩
    · rintro ⟨-, -, -, rfl⟩
      rfl

-- Any of the three guard conditions forces a configuration error.
theorem resolveConfig_isError (env : Env) (flags : Flags)
    (h : env.SOURCE_DATABASE_URI = "" ∨
         (env.FLY_APP_NAME ≠ "" ∧ env.OPERATOR_PASSWORD = "") ∨
         env.TARGET_DATABASE_URI = "") :
    ∃ e, resolveConfig env flags = Except.error e := by
  unfold resolveConfig
  split_ifs with h1 h2 h3
  · exact ⟨_, rfl⟩
  · exact ⟨_, rfl⟩
  · exact ⟨_, rfl⟩
  · rcases h with h | h | h <;> simp_all

-- When the app name is set, the source is present and the password is
-- empty, the password check aborts configuration (lines 48-55).
theorem resolveConfig_password_error (env : Env) (flags : Flags)
    (hs : env.SOURCE_DATABASE_URI ≠ "") (ha : env.FLY_APP_NAME ≠ "")
    (hp : env.OPERATOR_PASSWORD = "") :
    resolveConfig env flags = Except.error ConfigError.missingOperatorPassword := by
  unfold resolveConfig
  split_ifs with h1 h2
  · exact absurd h1 hs
  · rfl
  all_goals exact absurd ⟨ha, hp⟩ h2

/-- C4: in every successfully constructed `migrationOpts` the target
locator is exactly `TARGET_DATABASE_URI` (the derived locator of line 49 is
unconditionally overwritten on line 57 before use), and whenever
`TARGET_DATABASE_URI` is unset configuration fails, so the
application-name path can never yield a successful configuration on its
own. -/
theorem target_always_explicit (env : Env) (flags : Flags) :
    (∀ opts, resolveConfig env flags = Except.ok opts →
        opts.targetURI = env.TARGET_DATABASE_URI) ∧
    (env.TARGET_DATABASE_URI = "" →
        ∃ e, resolveConfig env flags = Except.error e) := by
  constructor
  · intro opts h
    rw [resolveConfig_ok_iff] at h
    rw [h.2.2.2]
  · intro ht
    exact resolveConfig_isError env flags (Or.inr (Or.inr ht))

/-- Witness for C4: with both locators available the stored target is the
explicit one, and with `TARGET_DATABASE_URI` unset (scenario-4 environment)
configuration fails. -/
theorem target_always_explicit_witness :
    sampleOpts.targetURI = envBoth.TARGET_DATABASE_URI ∧
    ∃ e, resolveConfig envScenario4 defaultFlags = Except.error e :=
  ⟨(target_always_explicit envBoth defaultFlags).1 sampleOpts rfl,
   (target_always_explicit envScenario4 defaultFlags).2 rfl⟩

/-- C5: when the derived locator is available (app name and operator
password non-empty) and an explicit `TARGET_DATABASE_URI` is also present,
the explicit value silently overrides the derived one in the resulting
`migrationOpts`; with a source URI present such a configuration indeed
succeeds. -/
theorem explicit_overrides_derived (env : Env) (flags : Flags)
    (_ha : env.FLY_APP_NAME ≠ "") (hp : env.OPERATOR_PASSWORD ≠ "")
    (ht : env.TARGET_DATABASE_URI ≠ "") :
    (∀ opts, resolveConfig env flags = Except.ok opts →
        opts.targetURI = env.TARGET_DATABASE_URI) ∧
    (env.SOURCE_DATABASE_URI ≠ "" →
        ∃ opts, resolveConfig env flags = Except.ok opts ∧
          opts.targetURI = env.TARGET_DATABASE_URI) := by
  constructor
  · intro opts h
    rw [resolveConfig_ok_iff] at h
    rw [h.2.2.2]
  · intro hs
    exact ⟨_, (resolveConfig_ok_iff env flags _).mpr
      ⟨hs, fun hc => hp hc.2, ht, rfl⟩, rfl⟩

/-- Witness for C5: both locators present and non-empty, and the resulting
options carry the explicit target. -/
theorem explicit_overrides_derived_witness :
    ∃ opts, resolveConfig envBoth defaultFlags = Except.ok opts ∧
      opts.targetURI = envBoth.TARGET_DATABASE_URI :=
  (explicit_overrides_derived envBoth defaultFlags (by decide) (by decide)
      (by decide)).2 (by decide)

/-- Counterexample to C3: in the scenario-4 environment (app name set,
operator password unset, no explicit target) the configuration error raised
is `missingOperatorPassword` — the password check of lines 50-54 fires, not
the explicit-target-required branch of lines 59-63. -/
theorem scenario4_counterexample :
    resolveConfig envScenario4 defaultFlags
        = Except.error ConfigError.missingOperatorPassword ∧
    ConfigError.missingOperatorPassword ≠ ConfigError.missingTarget :=
  ⟨rfl, by decide⟩

/-- C3 (amended): with `FLY_APP_NAME` set, `OPERATOR_PASSWORD` unset and no
`TARGET_DATABASE_URI` (and a source URI present), configuration fails with
the missing-operator-password `ConfigurationError` and the process exits
with code 1. -/
theorem scenario4_missing_password (env : Env) (flags : Flags) (w : World)
    (hs : env.SOURCE_DATABASE_URI ≠ "") (ha : env.FLY_APP_NAME ≠ "")
    (hp : env.OPERATOR_PASSWORD = "") (_ht : env.TARGET_DATABASE_URI = "") :
    resolveConfig env flags = Except.error ConfigError.missingOperatorPassword ∧
    (mainRun env flags w).exitCode = 1 := by
  have hr := resolveConfig_password_error env flags hs ha hp
  exact ⟨hr, by simp [mainRun, hr]⟩

/-- Witness for C3 (amended): the concrete scenario-4 environment. -/
theorem scenario4_missing_password_witness :
    resolveConfig envScenario4 defaultFlags
        = Except.error ConfigError.missingOperatorPassword ∧
    (mainRun envScenario4 defaultFlags (okWorld "db" "14.2" "14.9")).exitCode = 1 :=
  scenario4_missing_password envScenario4 defaultFlags _
    (by decide) (by decide) rfl rfl

/-- Counterexample to C6: with `FLY_APP_NAME` non-empty and
`OPERATOR_PASSWORD` empty but `SOURCE_DATABASE_URI` also unset, the program
exits 1 reporting the missing source URI, not the missing
`OPERATOR_PASSWORD`. -/
theorem password_error_counterexample :
    (mainRun envNoSourceAppSet defaultFlags (okWorld "db" "14.2" "14.9")).exitCode = 1 ∧
    (mainRun envNoSourceAppSet defaultFlags (okWorld "db" "14.2" "14.9")).errorLines
        = [configErrMsg ConfigError.missingSource] ∧
    configErrMsg ConfigError.missingSource
        ≠ configErrMsg ConfigError.missingOperatorPassword :=
  ⟨rfl, rfl, by decide⟩

/-- C6 (amended): provided `SOURCE_DATABASE_URI` is set, whenever
`FLY_APP_NAME` is non-empty and `OPERATOR_PASSWORD` is empty the program
exits with code 1 reporting the missing `OPERATOR_PASSWORD` — even when
`TARGET_DATABASE_URI` holds a usable locator — and no connection attempt is
made. -/
theorem missing_password_reported (env : Env) (flags : Flags) (w : World)
    (hs : env.SOURCE_DATABASE_URI ≠ "") (ha : env.FLY_APP_NAME ≠ "")
    (hp : env.OPERATOR_PASSWORD = "") :
    (mainRun env flags w).exitCode = 1 ∧
    (mainRun env flags w).errorLines
        = [configErrMsg ConfigError.missingOperatorPassword] ∧
    (mainRun env flags w).events = [] := by
  have hr := resolveConfig_password_error env flags hs ha hp
  refine ⟨?_, ?_, ?_⟩ <;> simp [mainRun, hr]

/-- Witness for C6 (amended): app name set, password missing, explicit
target present. -/
theorem missing_password_reported_witness :
    (mainRun envAppNoPass defaultFlags (okWorld "db" "14.2" "14.9")).exitCode = 1 ∧
    (mainRun envAppNoPass defaultFlags (okWorld "db" "14.2" "14.9")).errorLines
        = [configErrMsg ConfigError.missingOperatorPassword] ∧
    (mainRun envAppNoPass defaultFlags (okWorld "db" "14.2" "14.9")).events = [] :=
  missing_password_reported envAppNoPass defaultFlags _ (by decide) (by decide) rfl

/-- C7: for every environment missing a required input — `SOURCE_DATABASE_URI`
unset, or no usable target locator (`TARGET_DATABASE_URI` unset, the only
locator the options can carry) — configuration fails with a
`ConfigurationError`, the process exits with code 1, and its event trace is
empty: zero connection attempts are made before exiting. -/
theorem missing_inputs_fail_before_network (env : Env) (flags : Flags) (w : World)
    (h : env.SOURCE_DATABASE_URI = "" ∨ env.TARGET_DATABASE_URI = "") :
    (∃ e, resolveConfig env flags = Except.error e) ∧
    (mainRun env flags w).exitCode = 1 ∧
    (mainRun env flags w).events = [] := by
  obtain ⟨e, he⟩ :=
    resolveConfig_isError env flags (h.elim Or.inl fun ht => Or.inr (Or.inr ht))
  exact ⟨⟨e, he⟩, by simp [mainRun, he], by simp [mainRun, he]⟩

/-- Witness for C7: scenario-3 environment (source URI unset). -/
theorem missing_inputs_witness :
    (∃ e, resolveConfig envNoSource defaultFlags = Except.error e) ∧
    (mainRun envNoSource defaultFlags (okWorld "db" "14.2" "14.9")).exitCode = 1 ∧
    (mainRun envNoSource defaultFlags (okWorld "db" "14.2" "14.9")).events = [] :=
  missing_inputs_fail_before_network envNoSource defaultFlags _ (Or.inl rfl)

/-- C8: whenever the source locator parses successfully but names no
database, pre-flight validation fails with the missing-database-reference
`ValidationError` and the event trace is empty — no connection is opened
and no version query is issued. -/
theorem missing_database_ref_fails_early (w : World) (opts : migrationOpts)
    (conf : PgConfig)
    (hp : w.parseSource = Except.ok conf) (hdb : conf.database = "") :
    runPreChecks w opts = (Except.error PreCheckErr.missingDatabaseRef, []) := by
  simp [runPreChecks, hp, hdb]

/-- Witness for C8: a parse result with an empty database field. -/
theorem missing_database_ref_witness :
    runPreChecks (okWorld "" "14.2" "14.9") sampleOpts
      = (Except.error PreCheckErr.missingDatabaseRef, []) :=
  missing_database_ref_fails_early (okWorld "" "14.2" "14.9") sampleOpts ⟨""⟩ rfl rfl

/-- C9: the process exits with code 0 exactly when configuration,
pre-flight validation and the pipeline all succeed; otherwise it exits with
code 1 having produced exactly one diagnostic line, and on success it
produces none. -/
theorem exit_code_semantics (env : Env) (flags : Flags) (w : World) :
    ((mainRun env flags w).exitCode = 0 ↔
      ∃ opts, resolveConfig env flags = Except.ok opts ∧
        (runPreChecks w opts).fst = Except.ok () ∧ w.pipeline = Except.ok ()) ∧
    ((mainRun env flags w).exitCode = 0 ∨ (mainRun env flags w).exitCode = 1) ∧
    ((mainRun env flags w).exitCode = 1 →
        (mainRun env flags w).errorLines.length = 1) ∧
    ((mainRun env flags w).exitCode = 0 → (mainRun env flags w).errorLines = []) := by
  cases hr : resolveConfig env flags with
  | error e => simp [mainRun, hr]
  | ok opts =>
    cases hpc : runPreChecks w opts with
    | mk res evs =>
      cases res with
      | error pe => simp [mainRun, hr, hpc]
      | ok u =>
        cases u
        cases hpl : w.pipeline with
        | error e2 => simp [mainRun, hr, hpc, hpl]
        | ok u2 =>
          cases u2
          simp [mainRun, hr, hpc, hpl]

/-- Witness for C9: scenario-1 succeeds with exit code 0, and a failing
configuration yields exactly one diagnostic line. -/
theorem exit_code_semantics_witness :
    (mainRun envBoth defaultFlags (okWorld "db" "14.2" "14.9")).exitCode = 0 ∧
    (mainRun envScenario4 defaultFlags
        (okWorld "db" "14.2" "14.9")).errorLines.length = 1 :=
  ⟨(exit_code_semantics envBoth defaultFlags
      (okWorld "db" "14.2" "14.9")).1.mpr ⟨sampleOpts, rfl, rfl, rfl⟩,
   (exit_code_semantics envScenario4 defaultFlags
      (okWorld "db" "14.2" "14.9")).2.2.1 rfl⟩
